import Mathlib

/-!
Shallow embedding of the scan-orchestration and interpretation engine of the
risk-assessments repository (src/src/utils/scanners/index.ts together with the
individual scanner modules certificateScanner.ts and emailAuthScanner.ts).

Modelling conventions:
* The i18next translation layer is an abstract environment `I18n`: `t key params`
  stands for `i18next.t(key, {ns: 'scanners', ...params})`, with interpolation
  parameters rendered as (name, value) string pairs in source order.
* JavaScript numbers used for timeouts are modelled as `Rat` (plus the `JsNum`
  type where NaN/Infinity matter); timestamps (`startedAt`, `finishedAt`,
  `timestamp`) carry no information relevant to the claims and are reduced to a
  `finishedAt : Bool` flag recording whether `finishedAt` was assigned.
* An asynchronous `run(domain)` is modelled by `RunBehavior`: the (virtual) time
  at which the underlying promise settles and the value it settles with
  (a resolution with a `ScannerOutcome`, or a rejection).  `Promise.race` in
  `withTimeout` then becomes a comparison of the settle time with the budget.
* Each probe's upstream client (fetchTXT, fetchCertificates, ...) is an explicit
  function/`Except` parameter: `.error` models a rejected upstream promise.
-/

/-- Abstract i18next environment: `t key params` models
`i18next.t(key, {...params})`. -/
structure I18n where
  t : String → List (String × String) → String

/-- Severity ladder of a scanner interpretation. -/
inductive SeverityLevel where
  | success
  | info
  | warning
  | critical
  | error
deriving DecidableEq, Repr

/-- Execution status of one scanner inside a batch. -/
inductive ScanStatus where
  | running
  | complete
  | error
deriving DecidableEq, Repr

/-- Attribution metadata `{name, url}` of a scanner's upstream. -/
structure DataSource where
  name : String
  url : String
deriving DecidableEq, Repr

/-- Certificate-like object consumed by certificateScanner (type AnyCert in the
source).  `notAfter` is the parsed epoch-milliseconds of the ISO date; `none`
covers both an absent field and an unparsable date (`Number.isFinite` guard).
Absent boolean fields are falsy in JS, hence default `false`. -/
structure AnyCert where
  subjectCN : Option String := none
  issuerCN : Option String := none
  notAfter : Option Int := none
  dnsNames : Option (List String) := none
  isSelfSigned : Bool := false
  isWildcard : Bool := false
  isExpired : Bool := false
  isActive : Bool := false
deriving DecidableEq, Repr

/-- Duck-typed `data` payload of a scanner result: the union of the fields that
the scanner runs produce and the interpretation functions read (each interpreter
casts `scanner.data` to a partial record, so absent fields are `none`). -/
structure ScanData where
  totalFound : Option Nat := none
  currentlyActive : Option Nat := none
  expiredCount : Option Nat := none
  certificates : List AnyCert := []
  spf : Option String := none
  dmarc : Option String := none
  dkimSelectorsTried : List String := []
  dkimFound : Option Bool := none
  errorField : Option String := none
  statusField : Option String := none
  lowestGrade : Option String := none
  grade : Option String := none
  dnssecEnabled : Option Bool := none
deriving DecidableEq, Repr

/-- What a scanner's `run` resolves with (ProbeOutcome): summary, optional
issues list (securityHeaders/rdap return `undefined` instead of `[]`), and an
optional data payload. -/
structure ScannerOutcome where
  summary : String
  issues : Option (List String) := none
  data : Option ScanData := none
deriving DecidableEq, Repr

/-- Severity/message/recommendation triple derived from an executed result. -/
structure ScannerInterpretation where
  severity : SeverityLevel
  message : String
  recommendation : String
deriving DecidableEq, Repr

/-- A JavaScript rejection value: an `Error` with a message, or any non-`Error`
value (whose message is reported as "Unknown error"). -/
inductive JsError where
  | jsError (msg : String)
  | nonError
deriving DecidableEq, Repr

/-- Message extraction `err instanceof Error ? err.message : 'Unknown error'`. -/
def jsErrorMessage : JsError → String
  | .jsError m => m
  | .nonError => "Unknown error"

/-- Terminal value of a settled `run` promise. -/
inductive RunResult where
  | ok (outcome : ScannerOutcome)
  | err (e : JsError)
deriving DecidableEq, Repr

/-- Behaviour of one invocation of a scanner's `run`: when the underlying
promise settles (in ms of virtual time) and with what. -/
structure RunBehavior where
  settleTime : Rat
  result : RunResult
deriving DecidableEq, Repr

/-- Executed Probe Result owned by the orchestrator (one per scanner per
batch).  `issues = none` models a missing `issues` key (possible only in the
error branch of `runScanner`); the batch path always materialises a list. -/
structure ExecutedScannerResult where
  id : String
  label : String
  status : ScanStatus
  summary : Option String := none
  issues : Option (List String) := none
  data : Option ScanData := none
  error : Option String := none
  dataSource : Option DataSource := none
  finishedAt : Bool := false
deriving DecidableEq, Repr

/-- Static scanner definition (DomainScanner in types/domainScan).  `run` maps
the (normalized) domain to the behaviour of this invocation; `deriveIssues` is
the optional issue-derivation hook `scanner.deriveIssues?.(r, domain)`. -/
structure DomainScanner where
  id : String
  label : String
  description : String := ""
  timeout : Option Rat := none
  dataSource : Option DataSource := none
  deriveIssues : Option (ScannerOutcome → String → List String) := none
  run : String → RunBehavior

/-- Aggregate of one full batch (DomainScanAggregate); the wall-clock
`timestamp` field is omitted from the embedding. -/
structure DomainScanAggregate where
  domain : String
  scanners : List ExecutedScannerResult
  issues : List String

/-- JavaScript number as seen by `setScannerTimeout`'s validation. -/
inductive JsNum where
  | fin (x : Rat)
  | posInf
  | negInf
  | nan
deriving DecidableEq, Repr

/-- Truth value of the JS comparison `ms <= 0` (false on NaN). -/
def JsNum.le0 : JsNum → Bool
  | .fin x => decide (x ≤ 0)
  | .posInf => false
  | .negInf => true
  | .nan => false

/-- Truth value of `Number.isFinite(ms)`. -/
def JsNum.isFiniteNum : JsNum → Bool
  | .fin _ => true
  | _ => false

/-- Embedding of `setScannerTimeout` (index.ts:25-28): validation of the new
default; `.error` models the synchronous `throw`. -/
def setScannerTimeout (ms : JsNum) : Except String JsNum :=
  if ms.le0 || !ms.isFiniteNum then .error ("Invalid timeout value") else .ok ms

/-- State transition of the module-level `DEFAULT_SCANNER_TIMEOUT` variable when
`setScannerTimeout ms` is called with current value `current`: a thrown
validation error leaves the previous value in effect. -/
def applySetScannerTimeout (current : JsNum) (ms : JsNum) : JsNum :=
  match setScannerTimeout ms with
  | .ok v => v
  | .error _ => current

/-- Interpolation environment `{ns: 'scanners'}` shared by every `t` call. -/
def nsOnly : List (String × String) := [("ns", "scanners")]

/-- Timeout rejection message built in `withTimeout` (index.ts:38-43): the
translated scanner label and the configured limit are interpolated into the
`common.errors.timeout` template. -/
def timeoutMessage (tr : I18n) (scannerLabel : String) (timeoutMs : Rat) : String :=
  tr.t ("common.errors.timeout")
    [("ns", "scanners"), ("label", tr.t scannerLabel nsOnly), ("timeout", toString timeoutMs)]

/-- Embedding of `withTimeout` (index.ts:31-49): race between the scanner's
promise and a `timeoutMs` timer; the promise wins iff it settles strictly
before the timer fires, otherwise the race rejects with the timeout message. -/
def withTimeout (tr : I18n) (b : RunBehavior) (timeoutMs : Rat) (scannerLabel : String) :
    RunResult :=
  if b.settleTime < timeoutMs then b.result
  else .err (.jsError (timeoutMessage tr scannerLabel timeoutMs))

/-- Per-scanner time budget `scanner.timeout ?? DEFAULT_SCANNER_TIMEOUT`
(index.ts:124). -/
def effectiveTimeout (s : DomainScanner) (defaultTimeout : Rat) : Rat :=
  s.timeout.getD defaultTimeout

/-- Issues recorded on completion: `r.issues || scanner.deriveIssues?.(r, d) || []`
(index.ts:132).  An empty array is truthy in JS, so a present-but-empty
`r.issues` is kept as-is. -/
def resolveIssues (s : DomainScanner) (r : ScannerOutcome) (d : String) : List String :=
  match r.issues with
  | some l => l
  | none =>
    match s.deriveIssues with
    | some f => f r d
    | none => []

/-- Domain normalization `domain.trim().toLowerCase()` (index.ts:105). -/
def normalizeDomain (domain : String) : String :=
  domain.trim.toLower

/-- Terminal Executed Probe Result of one scanner inside `runAllScanners`: the
base object (index.ts:111-120) after the `.then` (complete) or `.catch` (error)
handler ran.  On completion `Object.assign(base, r, {...})` copies the
outcome's summary/data and the resolved issues; on error the base keeps its
initial `summary: undefined`, `issues: []`, `data: undefined`. -/
def executeScanner (tr : I18n) (defaultTimeout : Rat) (trimmed : String)
    (s : DomainScanner) : ExecutedScannerResult :=
  match withTimeout tr (s.run trimmed) (effectiveTimeout s defaultTimeout) s.label with
  | .ok r =>
    { id := s.id, label := s.label, status := .complete,
      summary := some r.summary,
      issues := some (resolveIssues s r trimmed),
      data := r.data, error := none,
      dataSource := s.dataSource, finishedAt := true }
  | .err e =>
    { id := s.id, label := s.label, status := .error,
      summary := none, issues := some [], data := none,
      error := some (jsErrorMessage e),
      dataSource := s.dataSource, finishedAt := true }

/-- Embedding of `runAllScanners` (index.ts:101-159): every registered scanner
is executed against the normalized domain; the results array is in registry
order (one push per scanner, in `SCANNERS.map` order) and the aggregate issue
list is `results.flatMap(r => r.issues || [])`. -/
def runAllScanners (tr : I18n) (defaultTimeout : Rat) (registry : List DomainScanner)
    (domain : String) : DomainScanAggregate :=
  let trimmed := normalizeDomain domain
  let results := registry.map (executeScanner tr defaultTimeout trimmed)
  { domain := trimmed,
    scanners := results,
    issues := results.flatMap (fun r => r.issues.getD []) }

/-- Base result object pushed for each scanner before its promise settles
(index.ts:111-120): status `running`, empty issues, no summary/data/error. -/
def runningResult (s : DomainScanner) : ExecutedScannerResult :=
  { id := s.id, label := s.label, status := .running,
    summary := none, issues := some [], data := none, error := none,
    dataSource := s.dataSource, finishedAt := false }

/-- One entry of a progress snapshot: scanners whose promise already settled
show their final terminal result (the mutated base object), the rest still show
the running base object. -/
def progressEntry (tr : I18n) (defaultTimeout : Rat) (trimmed : String)
    (settled : List Nat) (i : Nat) (s : DomainScanner) : ExecutedScannerResult :=
  if i ∈ settled then executeScanner tr defaultTimeout trimmed s else runningResult s

/-- Snapshot `[...results]` passed to `onProgress` when exactly the scanners at
the indices in `settled` have settled.  The k-th invocation of `onProgress`
during one batch is the snapshot for `settled = order.take k`, where `order` is
the order in which the scanner promises happened to settle. -/
def progressSnapshot (tr : I18n) (defaultTimeout : Rat) (trimmed : String)
    (registry : List DomainScanner) (settled : List Nat) : List ExecutedScannerResult :=
  (List.range registry.length).map (fun i =>
    match registry[i]? with
    | some s => progressEntry tr defaultTimeout trimmed settled i s
    | none => { id := "", label := "", status := .running })

/-- Embedding of `runScanner` (index.ts:162-194): single-scanner execution.
An unknown id throws (`.error`); otherwise the same `withTimeout` race is run
and converted into a single result.  Note the source passes the raw (untrimmed)
`domain` to `deriveIssues` here, and the error branch of the returned object
carries no `issues` key at all. -/
def runScanner (tr : I18n) (defaultTimeout : Rat) (registry : List DomainScanner)
    (domain : String) (scannerId : String) : Except String ExecutedScannerResult :=
  match registry.find? (fun s => s.id == scannerId) with
  | none => .error ("Scanner not found: " ++ scannerId)
  | some s =>
    match withTimeout tr (s.run (normalizeDomain domain)) (effectiveTimeout s defaultTimeout)
        s.label with
    | .ok r =>
      .ok { id := s.id, label := s.label, status := .complete,
            summary := some r.summary,
            issues := some (resolveIssues s r domain),
            data := r.data, error := none,
            dataSource := s.dataSource, finishedAt := true }
    | .err e =>
      .ok { id := s.id, label := s.label, status := .error,
            summary := none, issues := none, data := none,
            error := some (jsErrorMessage e),
            dataSource := s.dataSource, finishedAt := true }

/-- Truth-valued JS string disjunction `a || b` where `a` may be absent and the
empty string is falsy. -/
def jsOrStr (a : Option String) (b : String) : String :=
  match a with
  | some s => if s.isEmpty then b else s
  | none => b

/-- Containment of `pat` as a contiguous segment of a character list (helper
for `String.prototype.includes`). -/
def listHasSeg (pat : List Char) : List Char → Bool
  | [] => pat.isEmpty
  | c :: rest => pat.isPrefixOf (c :: rest) || listHasSeg pat rest

/-- JS `s.includes(sub)`. -/
def jsIncludes (s sub : String) : Bool :=
  listHasSeg sub.toList s.toList

/-- Embedding of `interpretDnsResult` (dnsScanner.ts:99-122): pure ladder on
the issue count (0 → success, 1-2 → warning, ≥3 → critical). -/
def interpretDnsResult (tr : I18n) (_scanner : ExecutedScannerResult) (issueCount : Nat) :
    ScannerInterpretation :=
  if issueCount == 0 then
    { severity := .success,
      message := tr.t ("dns.interpretation.success.message") nsOnly,
      recommendation := tr.t ("dns.interpretation.success.recommendation") nsOnly }
  else if issueCount ≤ 2 then
    { severity := .warning,
      message := tr.t ("dns.interpretation.warning.message") nsOnly,
      recommendation := tr.t ("dns.interpretation.warning.recommendation") nsOnly }
  else
    { severity := .critical,
      message := tr.t ("dns.interpretation.critical.message") nsOnly,
      recommendation := tr.t ("dns.interpretation.critical.recommendation") nsOnly }

/-- Embedding of `interpretEmailAuthResult` (emailAuthScanner.ts:96-122). -/
def interpretEmailAuthResult (tr : I18n) (scanner : ExecutedScannerResult)
    (issueCount : Nat) : ScannerInterpretation :=
  if scanner.status = .error then
    { severity := .error,
      message := jsOrStr scanner.error (tr.t ("common.errors.scannerFailed") nsOnly),
      recommendation := tr.t ("common.errors.retryMessage") nsOnly }
  else if issueCount == 0 then
    { severity := .success,
      message := tr.t ("emailAuth.interpretation.ok")
        [("ns", "scanners"), ("defaultValue", "Email authentication looks good.")],
      recommendation := tr.t ("emailAuth.interpretation.none")
        [("ns", "scanners"), ("defaultValue", "No changes required.")] }
  else
    let issues := scanner.issues.getD []
    let hasCritical := issues.any (fun i => jsIncludes i ("DMARC") || jsIncludes i ("SPF"))
    { severity := if hasCritical then .warning else .info,
      message := tr.t ("emailAuth.interpretation.issues")
        [("ns", "scanners"), ("count", toString issueCount)],
      recommendation := tr.t ("emailAuth.interpretation.recommendation") nsOnly }

/-- Embedding of `interpretCertificateResult` (certificateScanner.ts:171-222):
`status === 'error'` branch, then the `totalFound === 0` info branch, then the
issue-count warning branch, then success (with a different recommendation once
10 or more active certificates exist). -/
def interpretCertificateResult (tr : I18n) (scanner : ExecutedScannerResult)
    (issueCount : Nat) : ScannerInterpretation :=
  if scanner.status = .error then
    { severity := .error,
      message := jsOrStr scanner.error (tr.t ("common.errors.scannerFailed") nsOnly),
      recommendation := tr.t ("common.errors.retryMessage") nsOnly }
  else
    let totalFound : Option Nat := scanner.data.bind (fun d => d.totalFound)
    let activeCount : Nat := (scanner.data.bind (fun d => d.currentlyActive)).getD 0
    if totalFound = some 0 then
      { severity := .info,
        message := tr.t ("certificates.interpretation.noCerts.message") nsOnly,
        recommendation := tr.t ("certificates.interpretation.noCerts.recommendation") nsOnly }
    else if issueCount > 0 then
      { severity := .warning,
        message := tr.t ("certificates.interpretation.issuesDetected.message")
          [("ns", "scanners"), ("activeCertCount", toString activeCount),
           ("issueCount", toString issueCount)],
        recommendation :=
          tr.t ("certificates.interpretation.issuesDetected.recommendation") nsOnly }
    else
      { severity := .success,
        message := tr.t ("certificates.interpretation.validCerts.message")
          [("ns", "scanners"), ("count", toString activeCount)],
        recommendation :=
          if activeCount ≥ 10 then
            tr.t ("certificates.interpretation.validCerts.recommendationMany") nsOnly
          else
            tr.t ("certificates.interpretation.validCerts.recommendationNormal") nsOnly }

/-- Embedding of `interpretRdapResult` (rdapScanner.ts, interpretation part):
an `error` field in the data gives the info/incomplete reading; otherwise the
issue texts decide between critical, expiration warning, generic warning and
success (whose recommendation depends on DNSSEC). -/
def interpretRdapResult (tr : I18n) (scanner : ExecutedScannerResult)
    (issueCount : Nat) : ScannerInterpretation :=
  let dataError : Option String := scanner.data.bind (fun d => d.errorField)
  if !(jsOrStr dataError ("")).isEmpty then
    { severity := .info,
      message := tr.t ("rdap.interpretation.incomplete.message") nsOnly,
      recommendation := tr.t ("rdap.interpretation.incomplete.recommendation") nsOnly }
  else
    let issues := scanner.issues.getD []
    let hasCriticalIssues := issues.any (fun i =>
      jsIncludes i.toLower ("expired") || jsIncludes i.toLower ("no nameservers"))
    let hasExpirationWarning := issues.any (fun i =>
      jsIncludes i.toLower ("expires in") && jsIncludes i.toLower ("days"))
    if hasCriticalIssues then
      { severity := .critical,
        message := tr.t ("rdap.interpretation.critical.message") nsOnly,
        recommendation := tr.t ("rdap.interpretation.critical.recommendation") nsOnly }
    else if hasExpirationWarning then
      { severity := .warning,
        message := tr.t ("rdap.interpretation.warning.message") nsOnly,
        recommendation := tr.t ("rdap.interpretation.warning.recommendation") nsOnly }
    else if issueCount > 0 then
      { severity := .warning,
        message := tr.t ("rdap.interpretation.recommendations.message") nsOnly,
        recommendation := tr.t ("rdap.interpretation.recommendations.recommendation") nsOnly }
    else
      { severity := .success,
        message := tr.t ("rdap.interpretation.healthy.message") nsOnly,
        recommendation :=
          if scanner.data.bind (fun d => d.dnssecEnabled) = some true then
            tr.t ("rdap.interpretation.healthy.recommendation") nsOnly
          else
            tr.t ("rdap.interpretation.healthyNoDnssec.recommendation") nsOnly }

/-- Truthy string-membership test `g && list.includes(g)` used by the SSL Labs
interpretation on the lowest observed grade. -/
def gradeIn (g : Option String) (l : List String) : Bool :=
  match g with
  | some s => !s.isEmpty && l.contains s
  | none => false

/-- Embedding of `interpretSslLabsResult` (sslLabsScanner.ts:286-340). -/
def interpretSslLabsResult (tr : I18n) (scanner : ExecutedScannerResult) :
    ScannerInterpretation :=
  let status : Option String := scanner.data.bind (fun d => d.statusField)
  if status = some ("ERROR") then
    { severity := .error,
      message := tr.t ("sslLabs.interpretation.error.message") nsOnly,
      recommendation := tr.t ("sslLabs.interpretation.error.recommendation") nsOnly }
  else if status ≠ some ("READY") then
    { severity := .info,
      message := tr.t ("sslLabs.interpretation.error.message") nsOnly,
      recommendation := tr.t ("sslLabs.interpretation.error.recommendation") nsOnly }
  else
    let lowestGrade : Option String := scanner.data.bind (fun d => d.lowestGrade)
    if gradeIn lowestGrade [("A+"), ("A"), ("A-")] then
      { severity := .success,
        message := tr.t ("sslLabs.interpretation.gradeA.message") nsOnly,
        recommendation := tr.t ("sslLabs.interpretation.gradeA.recommendation") nsOnly }
    else if gradeIn lowestGrade [("B")] then
      { severity := .warning,
        message := tr.t ("sslLabs.interpretation.gradeB.message") nsOnly,
        recommendation := tr.t ("sslLabs.interpretation.gradeB.recommendation") nsOnly }
    else if gradeIn lowestGrade [("C")] then
      { severity := .warning,
        message := tr.t ("sslLabs.interpretation.gradeC.message") nsOnly,
        recommendation := tr.t ("sslLabs.interpretation.gradeC.recommendation") nsOnly }
    else
      { severity := .critical,
        message := tr.t ("sslLabs.interpretation.gradeDF.message") nsOnly,
        recommendation := tr.t ("sslLabs.interpretation.gradeDF.recommendation") nsOnly }

/-- Embedding of `interpretSecurityHeadersResult` (securityHeadersScanner.ts:
145-184): `unavailable` data gives info, otherwise the header grade (defaulting
to "Unknown") decides the ladder. -/
def interpretSecurityHeadersResult (tr : I18n) (scanner : ExecutedScannerResult) :
    ScannerInterpretation :=
  let status : Option String := scanner.data.bind (fun d => d.statusField)
  if status = some ("unavailable") then
    { severity := .info,
      message := tr.t ("securityHeaders.interpretation.unavailable.message") nsOnly,
      recommendation :=
        tr.t ("securityHeaders.interpretation.unavailable.recommendation") nsOnly }
  else
    let grade := jsOrStr (scanner.data.bind (fun d => d.grade)) ("Unknown")
    if grade = "A+" ∨ grade = "A" then
      { severity := .success,
        message := tr.t ("securityHeaders.interpretation.gradeA.message") nsOnly,
        recommendation := tr.t ("securityHeaders.interpretation.gradeA.recommendation") nsOnly }
    else if grade = "B" then
      { severity := .info,
        message := tr.t ("securityHeaders.interpretation.gradeB.message") nsOnly,
        recommendation := tr.t ("securityHeaders.interpretation.gradeB.recommendation") nsOnly }
    else if grade = "C" then
      { severity := .warning,
        message := tr.t ("securityHeaders.interpretation.gradeC.message") nsOnly,
        recommendation := tr.t ("securityHeaders.interpretation.gradeC.recommendation") nsOnly }
    else
      { severity := .critical,
        message := tr.t ("securityHeaders.interpretation.gradeDF.message") nsOnly,
        recommendation := tr.t ("securityHeaders.interpretation.gradeDF.recommendation") nsOnly }

/-- Embedding of `interpretScannerResult` (index.ts:62-98): generic error
branch first, then dispatch by scanner id to the specific interpreters, with a
generic zero-or-some-issues fallback for unknown ids. -/
def interpretScannerResult (tr : I18n) (scanner : ExecutedScannerResult) :
    ScannerInterpretation :=
  if scanner.status = .error then
    { severity := .error,
      message := jsOrStr scanner.error (tr.t ("common.errors.scannerFailed") nsOnly),
      recommendation := tr.t ("common.errors.retryMessage") nsOnly }
  else
    let issueCount := (scanner.issues.getD []).length
    match scanner.id with
    | "dns" => interpretDnsResult tr scanner issueCount
    | "emailAuth" => interpretEmailAuthResult tr scanner issueCount
    | "certificates" => interpretCertificateResult tr scanner issueCount
    | "rdap" => interpretRdapResult tr scanner issueCount
    | "sslLabs" => interpretSslLabsResult tr scanner
    | "securityHeaders" => interpretSecurityHeadersResult tr scanner
    | _ =>
      if issueCount == 0 then
        { severity := .success,
          message := tr.t ("common.interpretation.checkCompleted") nsOnly,
          recommendation := tr.t ("common.interpretation.noIssuesDetected") nsOnly }
      else
        { severity := .warning,
          message := tr.t ("common.interpretation.issuesFound")
            [("ns", "scanners"), ("count", toString issueCount)],
          recommendation := tr.t ("common.interpretation.reviewIssues") nsOnly }

/-- JS `Math.ceil(a / b)` on integers (b positive). -/
def jsCeilDiv (a b : Int) : Int :=
  -((-a).ediv b)

/-- Embedding of certificateScanner's `daysUntil` helper (certificateScanner.ts:
17-23): days from `now` until the parsed `notAfter` time, `none` when the date
is absent or unparsable. -/
def daysUntil (now : Int) (notAfter : Option Int) : Option Int :=
  notAfter.map (fun d => jsCeilDiv (d - now) (1000 * 60 * 60 * 24))

/-- Applicability filter of certificateScanner (certificateScanner.ts:38-58):
keep certificates whose subject CN or SAN list matches the domain directly, as
`*.domain`, as a subdomain suffix, or as a covering wildcard. -/
def certMatchesDomain (domain : String) (c : AnyCert) : Bool :=
  let cn := (c.subjectCN.getD ("")).toLower
  let dnsNames := (c.dnsNames.getD []).map (fun n => n.toLower)
  let d := domain.toLower
  let matchesCN :=
    cn == d || cn == ("*." ++ d) || cn.endsWith ("." ++ d) ||
      (cn.startsWith ("*.") && d.endsWith (cn.drop 1))
  let matchesSAN := dnsNames.any (fun n =>
    n == d || n == ("*." ++ d) || n.endsWith ("." ++ d) ||
      (n.startsWith ("*.") && d.endsWith (n.drop 1)))
  matchesCN || matchesSAN

/-- Conditional issue entry (one `issues.push(...)` guarded by an `if`). -/
def optIssue (b : Bool) (s : String) : List String :=
  if b then [s] else []

/-- Body of `certificateScanner.run` after `fetchCertificates` resolved with
`certs` (certificateScanner.ts:31-167): filters the applicable certificates,
collects the issue list in source push order (noCerts, selfSigned, wildcard,
per-certificate 7-day then 30-day expiry warnings, excessive count, many
issuers), and builds the summary and data payload. -/
def certificatesRunBody (tr : I18n) (now : Int) (certs : List AnyCert)
    (domain : String) : ScannerOutcome :=
  let applicable := certs.filter (certMatchesDomain domain)
  let active := applicable.filter (fun c => c.isActive)
  let expired := applicable.filter (fun c => c.isExpired)
  let selfSignedActive := applicable.filter (fun c => c.isSelfSigned && c.isActive)
  let wildcard := applicable.filter (fun c => c.isWildcard)
  let expiring7 := active.filterMap (fun c =>
    match daysUntil now c.notAfter with
    | some days =>
      if 0 ≤ days ∧ days ≤ 7 then some (jsOrStr c.subjectCN domain, days) else none
    | none => none)
  let expiring30 := active.filterMap (fun c =>
    match daysUntil now c.notAfter with
    | some days =>
      if 7 < days ∧ days ≤ 30 then some (jsOrStr c.subjectCN domain, days) else none
    | none => none)
  let issuersCount :=
    (((applicable.map (fun c => (c.issuerCN.getD ("")).trim)).filter
      (fun x => !x.isEmpty)).dedup).length
  let issues :=
    optIssue (applicable.length == 0) (tr.t ("certificates.issues.noCerts") nsOnly) ++
    optIssue (selfSignedActive.length > 0)
      (tr.t ("certificates.issues.selfSigned")
        [("ns", "scanners"), ("count", toString selfSignedActive.length)]) ++
    optIssue (wildcard.length > 0)
      (tr.t ("certificates.issues.wildcard")
        [("ns", "scanners"), ("count", toString wildcard.length)]) ++
    expiring7.map (fun e =>
      tr.t ("certificates.issues.expiring7Days")
        [("ns", "scanners"), ("commonName", e.1), ("days", toString e.2)]) ++
    expiring30.map (fun e =>
      tr.t ("certificates.issues.expiring30Days")
        [("ns", "scanners"), ("commonName", e.1), ("days", toString e.2)]) ++
    optIssue (active.length ≥ 10)
      (tr.t ("certificates.issues.excessive")
        [("ns", "scanners"), ("count", toString active.length)]) ++
    optIssue (issuersCount ≥ 3)
      (tr.t ("certificates.issues.manyIssuers")
        [("ns", "scanners"), ("count", toString issuersCount)])
  let summary :=
    if applicable.length ≠ 0 then
      tr.t ("certificates.summary.found")
        [("ns", "scanners"), ("total", toString applicable.length)] ++
      (if active.length ≠ 0 then
        tr.t ("certificates.summary.active")
          [("ns", "scanners"), ("active", toString active.length)]
      else ("")) ++
      (if expired.length ≠ 0 then
        tr.t ("certificates.summary.expired")
          [("ns", "scanners"), ("expired", toString expired.length)]
      else (""))
    else tr.t ("certificates.summary.noneFound") nsOnly
  { summary := summary,
    issues := some issues,
    data := some { totalFound := some applicable.length,
                   currentlyActive := some active.length,
                   expiredCount := some expired.length,
                   certificates := applicable } }

/-- Embedding of `certificateScanner.run`: `fetchCertificates(domain)` is the
upstream behaviour `fetch` (`.error` = rejected lookup, which propagates out of
`run` because the body does not catch it). -/
def certificatesRunE (tr : I18n) (now : Int) (fetch : Except String (List AnyCert))
    (domain : String) : Except String ScannerOutcome := do
  let certs ← fetch
  pure (certificatesRunBody tr now certs domain)

/-- Model of the `certificateScanner` DomainScanner object (certificateScanner.
ts:25-168): no probe-specific timeout, TLS data-source attribution, and a run
whose settlement carries the outcome of `certificatesRunE`. -/
def certificateScanner (tr : I18n) (now : Int) (fetch : Except String (List AnyCert))
    (settleTime : Rat) : DomainScanner :=
  { id := "certificates", label := "certificates.label",
    description := "certificates.description",
    dataSource := some { name := "TLS", url := "https://certificate.transparency.dev/" },
    run := fun domain =>
      { settleTime := settleTime,
        result :=
          match certificatesRunE tr now fetch domain with
          | .ok o => .ok o
          | .error m => .err (.jsError m) } }

/-- Embedding of `stripQuotes` (emailAuthScanner.ts:7-9): removal of leading
and trailing double-quote runs. -/
def stripQuotes (s : String) : String :=
  let l := s.toList.dropWhile (fun c => c == '"')
  String.mk ((l.reverse.dropWhile (fun c => c == '"')).reverse)

/-- Embedding of `flattenTxt` (emailAuthScanner.ts:11-13). -/
def flattenTxt (txt : List String) : String :=
  String.join (txt.map stripQuotes)

/-- Case-insensitive containment of `v=spf1` (emailAuthScanner.ts:15-17). -/
def hasSpfRecord (txtRecords : List String) : Bool :=
  txtRecords.any (fun r => jsIncludes (stripQuotes r).toLower ("v=spf1"))

/-- Case-insensitive containment of `v=dmarc1` (emailAuthScanner.ts:19-21). -/
def hasDmarcRecord (txtRecords : List String) : Bool :=
  txtRecords.any (fun r => jsIncludes (stripQuotes r).toLower ("v=dmarc1"))

/-- Case-insensitive containment of `v=dkim1` (emailAuthScanner.ts:23-25). -/
def hasDkimRecord (txtRecords : List String) : Bool :=
  txtRecords.any (fun r => jsIncludes (stripQuotes r).toLower ("v=dkim1"))

/-- Embedding of `safeFetchTxt` (emailAuthScanner.ts:27-34): a rejected
`fetchTXT` is caught and converted to the empty record set (the `Array.isArray`
guard is absorbed by typing the upstream result as a list). -/
def safeFetchTxt (fetch : String → Except String (List String)) (name : String) :
    Except String (List String) :=
  match fetch name with
  | .ok out => .ok out
  | .error _ => .ok []

/-- DKIM selector loop of `emailAuthScanner.run` (emailAuthScanner.ts:63-70):
first selector whose `selector._domainkey.domain` TXT set is non-empty and
contains a DKIM record stops the search. -/
def dkimLoop (fetch : String → Except String (List String)) (domain : String) :
    List String → Except String Bool
  | [] => .ok false
  | sel :: rest => do
    let dkimTxt ← safeFetchTxt fetch (sel ++ "._domainkey." ++ domain)
    if dkimTxt.length ≠ 0 && hasDkimRecord dkimTxt then .ok true
    else dkimLoop fetch domain rest

/-- Embedding of `emailAuthScanner.run` (emailAuthScanner.ts:41-92): SPF from
the root TXT set, DMARC from `_dmarc.`, DKIM from the saved selectors (from
`getDkimSelectors`, passed here as `savedSelectors`) or the built-in fallback
list; every TXT lookup goes through `safeFetchTxt`. -/
def emailAuthRunE (tr : I18n) (fetch : String → Except String (List String))
    (savedSelectors : List String) (domain : String) : Except String ScannerOutcome := do
  let rootTxt ← safeFetchTxt fetch domain
  let spfOk := hasSpfRecord rootTxt
  let dmarcTxt ← safeFetchTxt fetch ("_dmarc." ++ domain)
  let dmarcOk := hasDmarcRecord dmarcTxt
  let selectors :=
    if savedSelectors.length > 0 then savedSelectors
    else ["default", "selector1", "selector2", "s1", "s2"]
  let dkimFound ← dkimLoop fetch domain selectors
  let issues :=
    optIssue (!spfOk) (tr.t ("emailAuth.issues.noSPF") nsOnly) ++
    optIssue (!dmarcOk) (tr.t ("emailAuth.issues.noDMARC") nsOnly) ++
    optIssue (!dkimFound) (tr.t ("emailAuth.issues.noDKIM") nsOnly)
  let summary := String.intercalate (", ")
    [("SPF:") ++ (if spfOk then ("yes") else ("no")),
     ("DMARC:") ++ (if dmarcOk then ("yes") else ("no")),
     ("DKIM:") ++ (if dkimFound then ("yes") else ("no"))]
  pure { summary := summary,
         issues := some issues,
         data := some { spf := some (flattenTxt rootTxt),
                        dmarc := some (flattenTxt dmarcTxt),
                        dkimSelectorsTried := selectors,
                        dkimFound := some dkimFound } }

/-- Model of the `emailAuthScanner` DomainScanner object (emailAuthScanner.ts:
36-93): no probe-specific timeout and no data source; the run settles with the
outcome of `emailAuthRunE`. -/
def emailAuthScanner (tr : I18n) (fetch : String → Except String (List String))
    (savedSelectors : List String) (settleTime : Rat) : DomainScanner :=
  { id := "emailAuth", label := "emailAuth.label",
    description := "emailAuth.description",
    run := fun domain =>
      { settleTime := settleTime,
        result :=
          match emailAuthRunE tr fetch savedSelectors domain with
          | .ok o => .ok o
          | .error m => .err (.jsError m) } }

/-- Translation environment used for concrete instantiations: renders every
template as its bare key. -/
def trEx : I18n := ⟨fun k _ => k⟩

/-- Concrete scanner that resolves after `st` ms with the given issue list. -/
def okScannerEx (idv : String) (iss : List String) (st : Rat) : DomainScanner :=
  { id := idv, label := idv ++ ".label",
    run := fun _ => { settleTime := st, result := .ok { summary := ("ok"), issues := some iss } } }

/-- Concrete scanner whose run rejects after 2 ms with `Error('upstream 500')`. -/
def rejectScannerEx : DomainScanner :=
  { id := ("pr"), label := ("pr.label"),
    run := fun _ => { settleTime := 2, result := .err (.jsError ("upstream 500")) } }

/-- Concrete scanner that resolves only after 9999 ms. -/
def slowScannerEx : DomainScanner :=
  { id := ("slow"), label := ("slow.label"),
    run := fun _ => { settleTime := 9999, result := .ok { summary := ("late") } } }

/-- Concrete three-scanner registry (issue lists ['a'], [], ['b','c']). -/
def regEx : List DomainScanner :=
  [okScannerEx ("p1") [("a")] 1, okScannerEx ("p2") [] 2, okScannerEx ("p3") [("b"), ("c")] 3]

/-- Concrete executed result used to instantiate interpretation statements. -/
def resultEx : ExecutedScannerResult :=
  { id := ("certificates"), label := ("certificates.label"), status := .complete,
    summary := some ("ok"), issues := some [("x")],
    data := some { totalFound := some 3, currentlyActive := some 2 }, finishedAt := true }

/-- Concrete scanner with an explicit probe-specific timeout of 7 ms. -/
def timedScannerEx : DomainScanner :=
  { id := ("timed"), label := ("timed.label"), timeout := some 7,
    run := fun _ => { settleTime := 1, result := .ok { summary := ("ok"), issues := some [] } } }

/-- Concrete TXT fetch behaviour in which every lookup rejects. -/
def fetchFailEx : String → Except String (List String) :=
  fun _ => .error ("boom")

theorem executeScanner_id (tr : I18n) (dt : Rat) (d : String) (s : DomainScanner) :
    (executeScanner tr dt d s).id = s.id := by
  cases h : withTimeout tr (s.run d) (effectiveTimeout s dt) s.label <;>
    simp [executeScanner, h]

theorem executeScanner_terminal (tr : I18n) (dt : Rat) (d : String) (s : DomainScanner) :
    (executeScanner tr dt d s).status = .complete ∨
    (executeScanner tr dt d s).status = .error := by
  cases h : withTimeout tr (s.run d) (effectiveTimeout s dt) s.label <;>
    simp [executeScanner, h]

/-- C1: for every input domain and however each registered probe's run behaves
(resolves, rejects, or exceeds its timeout), `runAllScanners` returns an
aggregate whose probe-result list has exactly one entry per registered scanner
(its length equals the registry length), the entry at each index is the
executed result of the scanner declared at that index (so results appear in
registry declaration order — settlement order does not enter the aggregate at
all in the model, matching the index-addressed `results` array of the source),
and every entry is terminal. -/
theorem runAllScanners_completeness_order (tr : I18n) (dt : Rat)
    (registry : List DomainScanner) (domain : String) :
    (runAllScanners tr dt registry domain).scanners.length = registry.length ∧
    ∀ i, (h : i < registry.length) →
      (runAllScanners tr dt registry domain).scanners[i]? =
        some (executeScanner tr dt (normalizeDomain domain) (registry.get ⟨i, h⟩)) ∧
      (executeScanner tr dt (normalizeDomain domain) (registry.get ⟨i, h⟩)).id =
        (registry.get ⟨i, h⟩).id ∧
      ((executeScanner tr dt (normalizeDomain domain) (registry.get ⟨i, h⟩)).status = .complete ∨
        (executeScanner tr dt (normalizeDomain domain) (registry.get ⟨i, h⟩)).status = .error) := by
  constructor
  · simp [runAllScanners]
  · intro i h
    refine ⟨?_, executeScanner_id tr dt (normalizeDomain domain) (registry.get ⟨i, h⟩),
      executeScanner_terminal tr dt (normalizeDomain domain) (registry.get ⟨i, h⟩)⟩
    simp [runAllScanners, List.getElem?_map, List.getElem?_eq_getElem h]

/-- Closed instantiation of the C1 theorem on the concrete registry. -/
theorem runAllScanners_completeness_order_witness :
    (1 < regEx.length) ∧
    ((runAllScanners trEx 5000 regEx ("  Example.COM ")).scanners[1]? =
      some (executeScanner trEx 5000 (normalizeDomain ("  Example.COM "))
        (regEx.get ⟨1, by decide⟩))) :=
  ⟨by decide,
   ((runAllScanners_completeness_order trEx 5000 regEx ("  Example.COM ")).2 1 (by decide)).1⟩

theorem map_getElem?_append_ne {α β : Type} (f : α → β) (pre suf : List α) (a b : α)
    (i : Nat) (h : i ≠ pre.length) :
    ((pre ++ a :: suf).map f)[i]? = ((pre ++ b :: suf).map f)[i]? := by
  rw [List.map_append, List.map_append, List.map_cons, List.map_cons]
  rcases Nat.lt_or_ge i pre.length with hlt | hge
  · rw [List.getElem?_append_left (by simpa using hlt),
      List.getElem?_append_left (by simpa using hlt)]
  · have hlen : (pre.map f).length ≤ i := by simpa using hge
    rw [List.getElem?_append_right hlen, List.getElem?_append_right hlen]
    have hne : i - (pre.map f).length ≠ 0 := by
      simp only [List.length_map]
      omega
    obtain ⟨k, hk⟩ := Nat.exists_eq_succ_of_ne_zero hne
    rw [hk]
    simp

theorem map_getElem?_append_mid {α β : Type} (f : α → β) (pre suf : List α) (a : α) :
    ((pre ++ a :: suf).map f)[pre.length]? = some (f a) := by
  rw [List.map_append, List.map_cons,
    List.getElem?_append_right (by simp)]
  simp

theorem executeScanner_run_err (tr : I18n) (dt : Rat) (d : String) (s : DomainScanner)
    (e : JsError) (h1 : (s.run d).result = .err e)
    (h2 : (s.run d).settleTime < effectiveTimeout s dt) :
    executeScanner tr dt d s =
      { id := s.id, label := s.label, status := .error, summary := none, issues := some [],
        data := none, error := some (jsErrorMessage e), dataSource := s.dataSource,
        finishedAt := true } := by
  unfold executeScanner withTimeout
  rw [if_pos h2, h1]

/-- C2: the batch settles every probe (`Promise.allSettled` semantics): the
model of `runAllScanners` is a total function whose every per-probe entry is
terminal; a probe whose run rejects within its budget is recorded as an
error-status result carrying the rejection's message; and the executed result
at every other registry position is unchanged when one scanner's definition
(hence its behaviour: resolve, reject, or hang) is replaced by any other. -/
theorem runAllScanners_isolation (tr : I18n) (dt : Rat) (domain : String)
    (pre suf : List DomainScanner) (s₁ s₂ : DomainScanner) :
    (∀ r ∈ (runAllScanners tr dt (pre ++ s₁ :: suf) domain).scanners,
      r.status = .complete ∨ r.status = .error) ∧
    (∀ i, i ≠ pre.length →
      (runAllScanners tr dt (pre ++ s₁ :: suf) domain).scanners[i]? =
        (runAllScanners tr dt (pre ++ s₂ :: suf) domain).scanners[i]?) ∧
    (∀ e, (s₁.run (normalizeDomain domain)).result = .err e →
      (s₁.run (normalizeDomain domain)).settleTime < effectiveTimeout s₁ dt →
      (runAllScanners tr dt (pre ++ s₁ :: suf) domain).scanners[pre.length]? =
        some { id := s₁.id, label := s₁.label, status := .error, summary := none,
               issues := some [], data := none, error := some (jsErrorMessage e),
               dataSource := s₁.dataSource, finishedAt := true }) := by
  refine ⟨?_, ?_, ?_⟩
  · intro r hr
    simp only [runAllScanners, List.mem_map] at hr
    obtain ⟨s, _, rfl⟩ := hr
    exact executeScanner_terminal tr dt (normalizeDomain domain) s
  · intro i hne
    simp only [runAllScanners]
    exact map_getElem?_append_ne _ pre suf s₁ s₂ i hne
  · intro e h1 h2
    simp only [runAllScanners]
    rw [map_getElem?_append_mid, executeScanner_run_err tr dt (normalizeDomain domain) s₁ e h1 h2]

/-- Closed instantiation of the C2 theorem: a rejecting probe next to a
healthy sibling. -/
theorem runAllScanners_isolation_witness :
    ((0 : Nat) ≠ [okScannerEx ("p1") [("a")] 1].length → 
      (runAllScanners trEx 5000 ([okScannerEx ("p1") [("a")] 1] ++ rejectScannerEx :: []) ("x.com")).scanners[0]? =
        (runAllScanners trEx 5000 ([okScannerEx ("p1") [("a")] 1] ++ okScannerEx ("p2") [] 2 :: []) ("x.com")).scanners[0]?) ∧
    ((runAllScanners trEx 5000 ([okScannerEx ("p1") [("a")] 1] ++ rejectScannerEx :: []) ("x.com")).scanners[[okScannerEx ("p1") [("a")] 1].length]? =
      some { id := rejectScannerEx.id, label := rejectScannerEx.label, status := .error,
             summary := none, issues := some [], data := none,
             error := some (jsErrorMessage (.jsError ("upstream 500"))),
             dataSource := rejectScannerEx.dataSource, finishedAt := true }) := by
  have h := runAllScanners_isolation trEx 5000 ("x.com")
    [okScannerEx ("p1") [("a")] 1] [] rejectScannerEx (okScannerEx ("p2") [] 2)
  exact ⟨h.2.1 0, h.2.2 (.jsError ("upstream 500")) rfl (by decide)⟩

theorem executeScanner_run_timeout (tr : I18n) (dt : Rat) (d : String) (s : DomainScanner)
    (h : effectiveTimeout s dt ≤ (s.run d).settleTime) :
    executeScanner tr dt d s =
      { id := s.id, label := s.label, status := .error, summary := none, issues := some [],
        data := none, error := some (timeoutMessage tr s.label (effectiveTimeout s dt)),
        dataSource := s.dataSource, finishedAt := true } := by
  unfold executeScanner withTimeout
  rw [if_neg (not_lt.mpr h)]
  rfl

/-- C3: a probe whose run does not settle within its budget (`timeoutMs` if the
scanner declares one, else the process-wide default) is recorded with status
`error`, its error message is the `common.errors.timeout` template applied to
the translated label and the configured limit in milliseconds, its own issue
list is empty, and in a batch the timed-out probe contributes nothing to the
aggregate issue list (the batch issues are exactly those of the other
scanners). -/
theorem scanner_timeout_enforced (tr : I18n) (dt : Rat) (domain : String)
    (pre suf : List DomainScanner) (s : DomainScanner)
    (h : effectiveTimeout s dt ≤ (s.run (normalizeDomain domain)).settleTime) :
    (executeScanner tr dt (normalizeDomain domain) s).status = .error ∧
    (executeScanner tr dt (normalizeDomain domain) s).error =
      some (tr.t ("common.errors.timeout")
        [("ns", "scanners"), ("label", tr.t s.label nsOnly),
         ("timeout", toString (effectiveTimeout s dt))]) ∧
    (executeScanner tr dt (normalizeDomain domain) s).issues = some [] ∧
    (runAllScanners tr dt (pre ++ s :: suf) domain).issues =
      (runAllScanners tr dt pre domain).issues ++ (runAllScanners tr dt suf domain).issues := by
  have hx := executeScanner_run_timeout tr dt (normalizeDomain domain) s h
  refine ⟨by rw [hx], by rw [hx]; rfl, by rw [hx], ?_⟩
  simp only [runAllScanners, List.map_append, List.map_cons, List.flatMap_append,
    List.flatMap_cons, hx]
  simp

/-- Closed instantiation of the C3 theorem: a scanner that settles after
9999 ms under a 10 ms default budget. -/
theorem scanner_timeout_enforced_witness :
    (executeScanner trEx 10 (normalizeDomain ("x.com")) slowScannerEx).status = .error ∧
    (executeScanner trEx 10 (normalizeDomain ("x.com")) slowScannerEx).error =
      some (trEx.t ("common.errors.timeout")
        [("ns", "scanners"), ("label", trEx.t slowScannerEx.label nsOnly),
         ("timeout", toString (effectiveTimeout slowScannerEx 10))]) ∧
    (executeScanner trEx 10 (normalizeDomain ("x.com")) slowScannerEx).issues = some [] := by
  have h := scanner_timeout_enforced trEx 10 ("x.com") [] [] slowScannerEx (by decide)
  exact ⟨h.1, h.2.1, h.2.2.1⟩

/-- C4: the aggregate's `issues` field is the order-preserving flattening of
the per-scanner issue lists, scanners contributing in registry order; and a
scanner that resolved within its budget contributes exactly the issue list of
its outcome (in the order the probe produced it), so scanners with an empty
list contribute nothing. -/
theorem aggregate_issue_flattening (tr : I18n) (dt : Rat)
    (registry : List DomainScanner) (domain : String) :
    ((runAllScanners tr dt registry domain).issues =
      (registry.map (fun s =>
        (executeScanner tr dt (normalizeDomain domain) s).issues.getD [])).flatten) ∧
    (∀ s : DomainScanner, ∀ o : ScannerOutcome, ∀ l : List String,
      withTimeout tr (s.run (normalizeDomain domain)) (effectiveTimeout s dt) s.label = .ok o →
      o.issues = some l →
      (executeScanner tr dt (normalizeDomain domain) s).issues.getD [] = l) := by
  constructor
  · simp [runAllScanners, List.flatMap_def, Function.comp_def]
  · intro s o l hw hiss
    unfold executeScanner
    rw [hw]
    simp [resolveIssues, hiss]

/-- Closed instantiation of the C4 theorem on the registry with issue lists
['a'], [], ['b','c']: the aggregate issue list is ['a','b','c']. -/
theorem aggregate_issue_flattening_witness :
    ((runAllScanners trEx 5000 regEx ("x.com")).issues = [("a"), ("b"), ("c")]) ∧
    ((executeScanner trEx 5000 (normalizeDomain ("x.com"))
        (okScannerEx ("p2") [] 2)).issues.getD [] = []) := by
  have h := aggregate_issue_flattening trEx 5000 regEx ("x.com")
  constructor
  · rw [h.1]; decide
  · exact h.2 (okScannerEx ("p2") [] 2) { summary := ("ok"), issues := some [] } [] (by decide) rfl

theorem progressSnapshot_length (tr : I18n) (dt : Rat) (d : String)
    (registry : List DomainScanner) (settled : List Nat) :
    (progressSnapshot tr dt d registry settled).length = registry.length := by
  simp [progressSnapshot]

theorem progressSnapshot_getElem (tr : I18n) (dt : Rat) (d : String)
    (registry : List DomainScanner) (settled : List Nat) (i : Nat)
    (h : i < registry.length) :
    (progressSnapshot tr dt d registry settled)[i]? =
      some (progressEntry tr dt d settled i (registry.get ⟨i, h⟩)) := by
  unfold progressSnapshot
  rw [List.getElem?_map, List.getElem?_range h]
  simp [List.getElem?_eq_getElem h]

/-- C5: during one batch, the k-th `onProgress` invocation observes the
snapshot in which exactly the first k settled scanners (indices `order.take k`
for the settlement order `order`) are terminal.  Every such snapshot has the
registry's length, every not-yet-settled scanner appears as its `running` base
object, and an entry that is terminal in one snapshot appears unchanged (in
particular not `running` again) in the next snapshot of the same batch. -/
theorem progress_monotonicity (tr : I18n) (dt : Rat) (domain : String)
    (registry : List DomainScanner) (order : List Nat) (k : Nat) :
    ((progressSnapshot tr dt (normalizeDomain domain) registry (order.take k)).length =
      registry.length) ∧
    (∀ i, (h : i < registry.length) → i ∉ order.take k →
      (progressSnapshot tr dt (normalizeDomain domain) registry (order.take k))[i]? =
        some (runningResult (registry.get ⟨i, h⟩))) ∧
    (∀ i : Nat, ∀ r : ExecutedScannerResult,
      (progressSnapshot tr dt (normalizeDomain domain) registry (order.take k))[i]? =
        some r →
      r.status ≠ .running →
      (progressSnapshot tr dt (normalizeDomain domain) registry (order.take (k + 1)))[i]? =
        some r) := by
  refine ⟨progressSnapshot_length tr dt (normalizeDomain domain) registry (order.take k),
    ?_, ?_⟩
  · intro i h hnm
    rw [progressSnapshot_getElem tr dt (normalizeDomain domain) registry (order.take k) i h]
    simp [progressEntry, hnm]
  · intro i r hr hst
    have hi : i < registry.length := by
      by_contra hge
      push_neg at hge
      have hnone : (progressSnapshot tr dt (normalizeDomain domain) registry
          (order.take k))[i]? = none :=
        List.getElem?_eq_none (by
          rw [progressSnapshot_length tr dt (normalizeDomain domain) registry (order.take k)]
          exact hge)
      rw [hnone] at hr
      cases hr
    rw [progressSnapshot_getElem tr dt (normalizeDomain domain) registry (order.take k) i hi]
      at hr
    have hrr : progressEntry tr dt (normalizeDomain domain) (order.take k) i
        (registry.get ⟨i, hi⟩) = r := Option.some.inj hr
    have hmem : i ∈ order.take k := by
      by_contra hnm
      apply hst
      rw [← hrr]
      simp [progressEntry, hnm, runningResult]
    have hmem2 : i ∈ order.take (k + 1) := by
      have h1 : (order.take (k + 1)).take k = order.take k := by
        rw [List.take_take]
        congr 1
        exact Nat.min_eq_left (Nat.le_succ k)
      exact List.take_subset k (order.take (k + 1)) (by rw [h1]; exact hmem)
    rw [progressSnapshot_getElem tr dt (normalizeDomain domain) registry (order.take (k + 1))
      i hi]
    rw [← hrr]
    simp [progressEntry, hmem, hmem2]

/-- Closed instantiation of the C5 theorem with settlement order [1,0,2] after
the first settlement: scanner 0 still shows `running`, and scanner 1's terminal
entry persists unchanged into the next snapshot. -/
theorem progress_monotonicity_witness :
    ((progressSnapshot trEx 5000 (normalizeDomain ("x.com")) regEx ([1, 0, 2].take 1))[0]? =
      some (runningResult (regEx.get ⟨0, by decide⟩))) ∧
    ((progressSnapshot trEx 5000 (normalizeDomain ("x.com")) regEx ([1, 0, 2].take 2))[1]? =
      some (executeScanner trEx 5000 (normalizeDomain ("x.com")) (okScannerEx ("p2") [] 2))) := by
  have h := progress_monotonicity trEx 5000 ("x.com") regEx [1, 0, 2] 1
  refine ⟨h.2.1 0 (by decide) (by decide), ?_⟩
  exact h.2.2 1
    (executeScanner trEx 5000 (normalizeDomain ("x.com")) (okScannerEx ("p2") [] 2))
    (by rfl) (by decide)

theorem executeScanner_run_ok (tr : I18n) (dt : Rat) (d : String) (s : DomainScanner)
    (o : ScannerOutcome) (h1 : (s.run d).result = .ok o)
    (h2 : (s.run d).settleTime < effectiveTimeout s dt) :
    executeScanner tr dt d s =
      { id := s.id, label := s.label, status := .complete, summary := some o.summary,
        issues := some (resolveIssues s o d), data := o.data, error := none,
        dataSource := s.dataSource, finishedAt := true } := by
  unfold executeScanner withTimeout
  rw [if_pos h2, h1]

/-- C6: an empty upstream certificate list is a successful outcome, not an
error: `certificateScanner.run` resolves (its body does not throw), the
resolved outcome carries the informational `noCerts` issue and the `noneFound`
summary, the executed result of a batch that runs it within budget has status
`complete`, and the interpretation of that executed result is severity `info`
(the `noCerts` reading), not `error`. -/
theorem certificates_no_data_info (tr : I18n) (now : Int) (domain : String) (dt st : Rat)
    (h : st < dt) :
    (certificatesRunE tr now (.ok []) (normalizeDomain domain) =
      .ok (certificatesRunBody tr now [] (normalizeDomain domain))) ∧
    ((certificatesRunBody tr now [] (normalizeDomain domain)).issues =
      some [tr.t ("certificates.issues.noCerts") nsOnly]) ∧
    ((certificatesRunBody tr now [] (normalizeDomain domain)).summary =
      tr.t ("certificates.summary.noneFound") nsOnly) ∧
    ((executeScanner tr dt (normalizeDomain domain)
        (certificateScanner tr now (.ok []) st)).status = .complete) ∧
    (interpretScannerResult tr (executeScanner tr dt (normalizeDomain domain)
        (certificateScanner tr now (.ok []) st)) =
      { severity := .info,
        message := tr.t ("certificates.interpretation.noCerts.message") nsOnly,
        recommendation :=
          tr.t ("certificates.interpretation.noCerts.recommendation") nsOnly }) := by
  have hok : executeScanner tr dt (normalizeDomain domain)
      (certificateScanner tr now (.ok []) st) =
      { id := ("certificates"), label := ("certificates.label"), status := .complete,
        summary := some (certificatesRunBody tr now [] (normalizeDomain domain)).summary,
        issues := some (resolveIssues (certificateScanner tr now (.ok []) st)
          (certificatesRunBody tr now [] (normalizeDomain domain)) (normalizeDomain domain)),
        data := (certificatesRunBody tr now [] (normalizeDomain domain)).data, error := none,
        dataSource := some { name := ("TLS"), url := ("https://certificate.transparency.dev/") },
        finishedAt := true } :=
    executeScanner_run_ok tr dt (normalizeDomain domain) (certificateScanner tr now (.ok []) st)
      (certificatesRunBody tr now [] (normalizeDomain domain)) rfl
      (by simpa [certificateScanner, effectiveTimeout] using h)
  refine ⟨rfl, rfl, rfl, by rw [hok], ?_⟩
  rw [hok]
  rfl

/-- Closed instantiation of the C6 theorem (0 ms settlement under the 30000 ms
default). -/
theorem certificates_no_data_info_witness :
    ((certificatesRunBody trEx 0 [] (normalizeDomain ("x.com"))).issues =
      some [trEx.t ("certificates.issues.noCerts") nsOnly]) ∧
    (interpretScannerResult trEx (executeScanner trEx 30000 (normalizeDomain ("x.com"))
        (certificateScanner trEx 0 (.ok []) 0)) =
      { severity := .info,
        message := trEx.t ("certificates.interpretation.noCerts.message") nsOnly,
        recommendation :=
          trEx.t ("certificates.interpretation.noCerts.recommendation") nsOnly }) := by
  have h := certificates_no_data_info trEx 0 ("x.com") 30000 0 (by decide)
  exact ⟨h.2.1, h.2.2.2.2⟩

/-- C7: `setScannerTimeout` throws synchronously on every non-positive or
non-finite input (0, negatives, ±Infinity, NaN), in which case the previous
default stays in effect; an accepted (finite positive) value becomes the new
default.  The new default reaches only scanners without their own explicit
`timeoutMs` (an explicit `timeout` makes the executed result independent of the
default), and only batches started after the change, since each batch reads the
default once at launch (here: the `defaultTimeout` argument of the run). -/
theorem setScannerTimeout_validation :
    (∀ q : Rat, q ≤ 0 →
      setScannerTimeout (.fin q) = .error ("Invalid timeout value") ∧
      ∀ cur : JsNum, applySetScannerTimeout cur (.fin q) = cur) ∧
    (setScannerTimeout .posInf = .error ("Invalid timeout value") ∧
      setScannerTimeout .negInf = .error ("Invalid timeout value") ∧
      setScannerTimeout .nan = .error ("Invalid timeout value") ∧
      ∀ cur : JsNum, applySetScannerTimeout cur .posInf = cur ∧
        applySetScannerTimeout cur .negInf = cur ∧
        applySetScannerTimeout cur .nan = cur) ∧
    (∀ q : Rat, 0 < q →
      setScannerTimeout (.fin q) = .ok (.fin q) ∧
      ∀ cur : JsNum, applySetScannerTimeout cur (.fin q) = .fin q) ∧
    (∀ (tr : I18n) (d : String) (s : DomainScanner) (tm dt₁ dt₂ : Rat),
      s.timeout = some tm → executeScanner tr dt₁ d s = executeScanner tr dt₂ d s) ∧
    (∀ (s : DomainScanner) (dt : Rat), s.timeout = none → effectiveTimeout s dt = dt) := by
  refine ⟨?_, ⟨rfl, rfl, rfl, fun cur => ⟨rfl, rfl, rfl⟩⟩, ?_, ?_, ?_⟩
  · intro q hq
    have hset : setScannerTimeout (.fin q) = .error ("Invalid timeout value") := by
      simp [setScannerTimeout, JsNum.le0, JsNum.isFiniteNum, hq]
    exact ⟨hset, fun cur => by simp [applySetScannerTimeout, hset]⟩
  · intro q hq
    have hnle : ¬ q ≤ 0 := not_le.mpr hq
    have hset : setScannerTimeout (.fin q) = .ok (.fin q) := by
      simp [setScannerTimeout, JsNum.le0, JsNum.isFiniteNum, hnle]
    exact ⟨hset, fun cur => by simp [applySetScannerTimeout, hset]⟩
  · intro tr d s tm dt₁ dt₂ ht
    simp [executeScanner, effectiveTimeout, ht]
  · intro s dt hn
    simp [effectiveTimeout, hn]

/-- Closed instantiation of the C7 theorem at the concrete inputs 0, -5,
Infinity, NaN (rejected, previous 30000 kept), 100 (accepted), and a scanner
with explicit 7 ms timeout (unaffected by the default). -/
theorem setScannerTimeout_validation_witness :
    (applySetScannerTimeout (.fin 30000) (.fin 0) = .fin 30000) ∧
    (applySetScannerTimeout (.fin 30000) (.fin (-5)) = .fin 30000) ∧
    (applySetScannerTimeout (.fin 30000) .posInf = .fin 30000) ∧
    (applySetScannerTimeout (.fin 30000) .nan = .fin 30000) ∧
    (applySetScannerTimeout (.fin 30000) (.fin 100) = .fin 100) ∧
    (executeScanner trEx 1 ("x.com") timedScannerEx =
      executeScanner trEx 2 ("x.com") timedScannerEx) := by
  have h := setScannerTimeout_validation
  exact ⟨(h.1 0 (by decide)).2 (.fin 30000), (h.1 (-5) (by decide)).2 (.fin 30000),
    ((h.2.1.2.2.2 (.fin 30000)).1), ((h.2.1.2.2.2 (.fin 30000)).2.2),
    (h.2.2.1 100 (by decide)).2 (.fin 30000),
    h.2.2.2.1 trEx ("x.com") timedScannerEx 7 1 2 rfl⟩

/-- C8: `runScanner` with an unregistered id fails immediately with the
descriptive `Scanner not found: <id>` error (and, being a pure function of its
arguments, touches no batch state); with a registered id it never rejects and
returns a single executed result under the same `withTimeout` race semantics as
the batch path: a resolution within budget gives a `complete` result, while a
rejection or a timeout gives an `error`-status result (with the rejection
message resp. the translated-label timeout message) instead of a rejected
call. -/
theorem runScanner_semantics (tr : I18n) (dt : Rat) (registry : List DomainScanner)
    (domain scannerId : String) :
    (registry.find? (fun s => s.id == scannerId) = none →
      runScanner tr dt registry domain scannerId =
        .error ("Scanner not found: " ++ scannerId)) ∧
    (∀ s : DomainScanner, registry.find? (fun s => s.id == scannerId) = some s →
      (∀ o : ScannerOutcome,
        withTimeout tr (s.run (normalizeDomain domain)) (effectiveTimeout s dt) s.label =
          .ok o →
        runScanner tr dt registry domain scannerId =
          .ok { id := s.id, label := s.label, status := .complete, summary := some o.summary,
                issues := some (resolveIssues s o domain), data := o.data, error := none,
                dataSource := s.dataSource, finishedAt := true }) ∧
      (∀ e : JsError,
        withTimeout tr (s.run (normalizeDomain domain)) (effectiveTimeout s dt) s.label =
          .err e →
        runScanner tr dt registry domain scannerId =
          .ok { id := s.id, label := s.label, status := .error, summary := none,
                issues := none, data := none, error := some (jsErrorMessage e),
                dataSource := s.dataSource, finishedAt := true }) ∧
      (effectiveTimeout s dt ≤ (s.run (normalizeDomain domain)).settleTime →
        runScanner tr dt registry domain scannerId =
          .ok { id := s.id, label := s.label, status := .error, summary := none,
                issues := none, data := none,
                error := some (timeoutMessage tr s.label (effectiveTimeout s dt)),
                dataSource := s.dataSource, finishedAt := true })) := by
  constructor
  · intro hnone
    unfold runScanner
    rw [hnone]
  · intro s hfind
    refine ⟨?_, ?_, ?_⟩
    · intro o hw
      simp only [runScanner, hfind, hw]
    · intro e hw
      simp only [runScanner, hfind, hw]
    · intro htime
      simp only [runScanner, hfind, withTimeout, if_neg (not_lt.mpr htime), jsErrorMessage]

/-- Closed instantiation of the C8 theorem: unknown id `nope` on the concrete
registry, a successful single run of `p1`, and a timed-out single run of the
slow scanner under a 10 ms default. -/
theorem runScanner_semantics_witness :
    (runScanner trEx 5000 regEx ("x.com") ("nope") =
      .error ("Scanner not found: " ++ ("nope"))) ∧
    (runScanner trEx 5000 regEx ("x.com") ("p1") =
      .ok { id := ("p1"), label := ("p1.label"), status := .complete, summary := some ("ok"),
            issues := some [("a")], data := none, error := none,
            dataSource := none, finishedAt := true }) ∧
    (runScanner trEx 10 [slowScannerEx] ("x.com") ("slow") =
      .ok { id := ("slow"), label := ("slow.label"), status := .error, summary := none,
            issues := none, data := none,
            error := some (timeoutMessage trEx (("slow.label")) 10),
            dataSource := none, finishedAt := true }) := by
  refine ⟨(runScanner_semantics trEx 5000 regEx ("x.com") ("nope")).1 rfl, ?_, ?_⟩
  · exact ((runScanner_semantics trEx 5000 regEx ("x.com") ("p1")).2
      (okScannerEx ("p1") [("a")] 1) rfl).1
      { summary := ("ok"), issues := some [("a")] } rfl
  · exact ((runScanner_semantics trEx 10 [slowScannerEx] ("x.com") ("slow")).2
      slowScannerEx rfl).2.2 (by decide)

/-- C9: `interpretScannerResult` is pure: it is a function of its input (same
input, same output — two calls are literally the same value), it performs no
I/O and cannot mutate its argument in the embedding, and its output is fully
determined by the `id`, `status`, `error`, `issues` and `data` fields it reads:
two results agreeing on those fields (whatever their labels, summaries, data
sources or timestamps) get deep-equal interpretations. -/
theorem interpretScannerResult_pure (tr : I18n) (s₁ s₂ : ExecutedScannerResult)
    (hid : s₁.id = s₂.id) (hst : s₁.status = s₂.status) (herr : s₁.error = s₂.error)
    (hiss : s₁.issues = s₂.issues) (hdata : s₁.data = s₂.data) :
    interpretScannerResult tr s₁ = interpretScannerResult tr s₂ := by
  cases s₁
  cases s₂
  dsimp only at hid hst herr hiss hdata
  subst hid
  subst hst
  subst herr
  subst hiss
  subst hdata
  rfl

/-- Closed instantiation of the C9 theorem: two calls on the same concrete
result agree. -/
theorem interpretScannerResult_pure_witness :
    interpretScannerResult trEx resultEx = interpretScannerResult trEx resultEx :=
  interpretScannerResult_pure trEx resultEx resultEx rfl rfl rfl rfl rfl

theorem safeFetchTxt_exists_ok (fetch : String → Except String (List String)) (n : String) :
    ∃ l, safeFetchTxt fetch n = .ok l := by
  unfold safeFetchTxt
  cases fetch n with
  | ok out => exact ⟨out, rfl⟩
  | error e => exact ⟨[], rfl⟩

theorem dkimLoop_exists_ok (fetch : String → Except String (List String)) (domain : String) :
    ∀ sels : List String, ∃ b, dkimLoop fetch domain sels = .ok b := by
  intro sels
  induction sels with
  | nil => exact ⟨false, rfl⟩
  | cons sel rest ih =>
    obtain ⟨l, hl⟩ := safeFetchTxt_exists_ok fetch (sel ++ ("._domainkey.") ++ domain)
    obtain ⟨b, hb⟩ := ih
    simp only [dkimLoop, hl, bind, Except.bind]
    split
    · exact ⟨true, rfl⟩
    · exact ⟨b, hb⟩

theorem emailAuthRunE_exists_ok (tr : I18n) (fetch : String → Except String (List String))
    (saved : List String) (domain : String) :
    ∃ o, emailAuthRunE tr fetch saved domain = .ok o := by
  obtain ⟨l1, h1⟩ := safeFetchTxt_exists_ok fetch domain
  obtain ⟨l2, h2⟩ := safeFetchTxt_exists_ok fetch (("_dmarc.") ++ domain)
  obtain ⟨b, hb⟩ := dkimLoop_exists_ok fetch domain
    (if saved.length > 0 then saved
     else [("default"), ("selector1"), ("selector2"), ("s1"), ("s2")])
  simp only [emailAuthRunE, h1, h2, hb, bind, Except.bind, pure, Except.pure]
  exact ⟨_, rfl⟩

theorem dkimLoop_fail_false (e : String) (domain : String) :
    ∀ sels : List String, dkimLoop (fun _ => .error e) domain sels = .ok false := by
  intro sels
  induction sels with
  | nil => rfl
  | cons sel rest ih => simp [dkimLoop, safeFetchTxt, bind, Except.bind, ih]

theorem dkimLoop_empty_false (domain : String) :
    ∀ sels : List String, dkimLoop (fun _ => .ok []) domain sels = .ok false := by
  intro sels
  induction sels with
  | nil => rfl
  | cons sel rest ih => simp [dkimLoop, safeFetchTxt, bind, Except.bind, ih]

/-- C10: the email-authentication probe's run never rejects, whatever the
upstream TXT behaviour: every lookup failure is caught by `safeFetchTxt`, so
`emailAuthRunE` always resolves; a total upstream outage yields exactly the
result of genuinely absent records (the two are indistinguishable), namely the
missing-SPF/DMARC/DKIM issue triple with a `complete` settlement; hence inside
a batch the probe, when it settles within budget, always has status `complete`
— an error status can arise only from the timeout race. -/
theorem emailAuth_never_rejects (tr : I18n) (fetch : String → Except String (List String))
    (saved : List String) (domain : String) (e : String) (dt st : Rat) (h : st < dt) :
    (∃ o, emailAuthRunE tr fetch saved domain = .ok o) ∧
    (emailAuthRunE tr (fun _ => .error e) saved domain =
      emailAuthRunE tr (fun _ => .ok []) saved domain) ∧
    ((emailAuthRunE tr (fun _ => .error e) saved domain).map (fun o => o.issues) =
      .ok (some [tr.t ("emailAuth.issues.noSPF") nsOnly,
                 tr.t ("emailAuth.issues.noDMARC") nsOnly,
                 tr.t ("emailAuth.issues.noDKIM") nsOnly])) ∧
    ((executeScanner tr dt (normalizeDomain domain)
        (emailAuthScanner tr fetch saved st)).status = .complete) := by
  refine ⟨emailAuthRunE_exists_ok tr fetch saved domain, ?_, ?_, ?_⟩
  · simp only [emailAuthRunE, safeFetchTxt, bind, Except.bind,
      dkimLoop_fail_false, dkimLoop_empty_false]
  · simp only [emailAuthRunE, safeFetchTxt, bind, Except.bind, dkimLoop_fail_false,
      pure, Except.pure, Except.map, optIssue, hasSpfRecord, hasDmarcRecord]
    simp
  · obtain ⟨o, ho⟩ := emailAuthRunE_exists_ok tr fetch saved (normalizeDomain domain)
    have h1 : ((emailAuthScanner tr fetch saved st).run (normalizeDomain domain)).result =
        .ok o := by
      simp [emailAuthScanner, ho]
    have h2 : ((emailAuthScanner tr fetch saved st).run (normalizeDomain domain)).settleTime <
        effectiveTimeout (emailAuthScanner tr fetch saved st) dt := by
      simpa [emailAuthScanner, effectiveTimeout] using h
    rw [executeScanner_run_ok tr dt (normalizeDomain domain)
      (emailAuthScanner tr fetch saved st) o h1 h2]

/-- Closed instantiation of the C10 theorem: all TXT lookups reject with
`boom`, empty saved selector list, 0 ms settlement under the 30000 ms
default. -/
theorem emailAuth_never_rejects_witness :
    ((emailAuthRunE trEx fetchFailEx [] ("x.com")).map (fun o => o.issues) =
      .ok (some [trEx.t ("emailAuth.issues.noSPF") nsOnly,
                 trEx.t ("emailAuth.issues.noDMARC") nsOnly,
                 trEx.t ("emailAuth.issues.noDKIM") nsOnly])) ∧
    ((executeScanner trEx 30000 (normalizeDomain ("x.com"))
        (emailAuthScanner trEx fetchFailEx [] 0)).status = .complete) := by
  have h := emailAuth_never_rejects trEx fetchFailEx [] ("x.com") ("boom") 30000 0 (by decide)
  exact ⟨h.2.2.1, h.2.2.2⟩
